import Mathlib

/-!
Shallow embedding of the customer-order API (SebbieMzingKe/savannah-api):
the JWT token codec and auth middleware (src/internal/middleware/auth.go,
src/internal/handlers/auth.go, src/new/another_new.go) and the order-creation
workflow (src/handlers/order.go), together with theorems settling the
specification claims about them.
-/

namespace SavannahApi

/-- Splits a character list at every space, keeping empty fields, matching the
semantics of Go strings.Split(s, " ") as used in src/internal/middleware/auth.go. -/
def splitOnSpace : List Char → List (List Char)
  | [] => [[]]
  | c :: cs =>
    if c = ' ' then [] :: splitOnSpace cs
    else
      match splitOnSpace cs with
      | [] => [[c]]
      | w :: ws => (c :: w) :: ws

/-- Go strings.Split(s, " "): all fields, separators not included. -/
def goSplitSpace (s : String) : List String :=
  (splitOnSpace s.data).map (fun l => String.mk l)

/-- Joins word chunks back with single spaces (used to model SplitN's remainder). -/
def joinSpaces : List (List Char) → List Char
  | [] => []
  | [w] => w
  | w :: ws => w ++ ' ' :: joinSpaces ws

/-- Go strings.SplitN(s, " ", 2) as used in src/new/another_new.go: at most two
fields, the second keeps any further spaces. -/
def splitNTwo (s : String) : List String :=
  match splitOnSpace s.data with
  | [] => [s]
  | [w] => [String.mk w]
  | w :: ws => [String.mk w, String.mk (joinSpaces ws)]

/-- Boolean infix test on character lists. -/
def infixOf (pat : List Char) : List Char → Bool
  | [] => pat.isEmpty
  | s@(_ :: rest) => pat.isPrefixOf s || infixOf pat rest

/-- Go strings.Contains(s, pat); the middleware only calls it with non-empty
literal patterns. -/
def strContains (s pat : String) : Bool := infixOf pat.data s.data

/-- Session claims as serialized into the JWT payload by the issuing handlers
(src/internal/handlers/auth.go, Claims struct): the seven JSON-visible fields.
The duplicated registered-claims fields of the Go struct share these JSON tags
and are shadowed by these shallower fields during (un)marshalling.
Timestamps are Unix seconds. -/
structure JwtClaims where
  email : String
  sub : String
  name : String
  iss : String
  aud : String
  exp : Int
  iat : Int
deriving DecidableEq, Repr

/-- Signing algorithm declared in the token header. HS256 stands for the
HMAC family accepted by the middleware keyfunc; RS256 and the unsigned
method stand for the non-HMAC methods it rejects. -/
inductive Alg where
  | HS256
  | RS256
  | noneAlg
deriving DecidableEq, Repr

/-- Rendering of the header alg value used in the keyfunc error message. -/
def algName : Alg → String
  | .HS256 => "HS256"
  | .RS256 => "RS256"
  | .noneAlg => "none"

/-- A token string after base64/JSON decoding: either structurally invalid
(carrying the decode error text that jwt/v4 reports), or a decoded
header+payload+signature triple. -/
inductive TokenRepr where
  | malformed (msg : String)
  | signed (alg : Alg) (claims : JwtClaims) (sig : Nat)
deriving DecidableEq, Repr

/-- The jwt/v4 ValidationError: the bitmask flags relevant to this system plus
the rendered error text (Inner). iatE is ValidationErrorIssuedAt; not-before
is never set by this system's issuers and is not modelled. -/
structure VError where
  malformedE : Bool := false
  unverifiableE : Bool := false
  expiredE : Bool := false
  iatE : Bool := false
  sigE : Bool := false
  inner : String := ""
deriving DecidableEq, Repr

/-- Outcome of jwt.ParseWithClaims. -/
inductive ParseResult where
  | ok (claims : JwtClaims)
  | err (e : VError)
deriving DecidableEq, Repr

/-- HMAC-SHA256 over the serialized claims, modelled as an uninterpreted
deterministic digest of the secret and the claims; the development relies only
on it being a function of (secret, claims). -/
def hmacSign (secret : String) (c : JwtClaims) : Nat :=
  (secret.length + 1) * 1000003 + c.email.length * 7 + c.sub.length * 11 +
    c.name.length * 13 + c.iss.length * 17 + c.aud.length * 19 +
    c.exp.natAbs * 23 + c.iat.natAbs * 29

/-- jwt.ParseWithClaims of golang-jwt/jwt v4 as invoked in this repository.
hmacOnly: the keyfunc rejects non-HMAC signing methods (the middleware's
keyfunc in src/internal/middleware/auth.go does; the keyfunc of
AuthHandler.ValidateToken in src/internal/handlers/auth.go accepts any).
registeredPopulated: whether unmarshalling fills jwt.RegisteredClaims from the
payload. It does for the middleware Claims type; for the handlers Claims type
the shallower duplicate exp and iat fields shadow the registered ones, which
stay nil, so parse-time expiry and issued-at validation is skipped.
Claims validation and signature verification follow the v4 pipeline: a keyfunc
failure returns ValidationErrorUnverifiable at once; otherwise claim errors are
recorded first and a signature failure overwrites the Inner text. -/
def parseWithClaims (hmacOnly registeredPopulated : Bool) (secret : String)
    (now : Int) : TokenRepr → ParseResult
  | .malformed msg => .err { malformedE := true, inner := msg }
  | .signed alg claims sig =>
    if hmacOnly && !(alg == Alg.HS256) then
      .err { unverifiableE := true,
             inner := "unexpected signing method: " ++ algName alg }
    else
      let expFail := registeredPopulated && decide (claims.exp ≤ now)
      let iatFail := registeredPopulated && decide (now < claims.iat)
      let sigOk := (alg == Alg.HS256) && (sig == hmacSign secret claims)
      if expFail || iatFail || !sigOk then
        .err { expiredE := expFail, iatE := iatFail, sigE := !sigOk,
               inner :=
                 if !sigOk then "signature is invalid"
                 else if iatFail then "token used before issued"
                 else "token is expired by " ++ toString (now - claims.exp) }
      else
        .ok claims

/-- jwt.NewWithClaims(jwt.SigningMethodHS256, claims).SignedString(secret):
token issuance as performed by Login and Callback
(src/internal/handlers/auth.go lines 302-303, 404-405). -/
def jwtSign (secret : String) (c : JwtClaims) : TokenRepr :=
  .signed .HS256 c (hmacSign secret c)

/-- AuthHandler.ValidateToken (src/internal/handlers/auth.go lines 450-459):
parses with a keyfunc that returns the configured secret for any signing
method; the handlers Claims type leaves RegisteredClaims unpopulated (tag
shadowing), so no parse-time expiry check applies. -/
def validateToken (secret : String) (now : Int) (t : TokenRepr) : ParseResult :=
  parseWithClaims false false secret now t

/-- Secret selection in AuthMiddleware and Callback
(src/internal/middleware/auth.go lines 62-65 and 252-255): os.Getenv of an
unset variable is the empty string, and an empty secret silently falls back to
the fixed default. -/
def effectiveSecret (env : String) : String :=
  if env = "" then "secret-key" else env

/-- The signing secret of handlers.NewAuthHandler
(src/internal/handlers/auth.go lines 16-20): hardcoded, ignoring any
configuration. -/
def handlersAuthJwtSecret : String := "secret-key"

/-- Session claims built by the direct-credential Login
(src/internal/handlers/auth.go lines 286-300). t1 and t2 are the two
time.Now() calls: expiry is taken from the first, issued-at from the second. -/
def loginClaims (email : String) (t1 t2 : Int) : JwtClaims :=
  { email := email, sub := email, name := "Seb", iss := "customer-order-api",
    aud := "customer-order-api", exp := t1 + 86400, iat := t2 }

/-- Session claims built by the OIDC Callback
(src/internal/handlers/auth.go lines 389-403). -/
def callbackClaims (email sub name : String) (t1 t2 : Int) : JwtClaims :=
  { email := email, sub := sub, name := name, iss := "customer-order-api",
    aud := "customer-order-api", exp := t1 + 86400, iat := t2 }

/-- The structured error body models.ErrorResponse. -/
structure ErrorResponse where
  error : String
  message : String
  code : Nat
deriving DecidableEq, Repr

/-- Result of running the auth middleware on one request: either an
unauthorized JSON body with the request aborted, or the claims attached to the
context and the chain continued. -/
inductive GateOutcome where
  | unauthorized (body : ErrorResponse)
  | proceed (claims : JwtClaims)
deriving DecidableEq, Repr

/-- AuthMiddleware of src/internal/middleware/auth.go (the variant wired into
src/main.go), as a function of the Authorization header, the JWT_SECRET
environment value, the current time, and the base64/JSON decoding of token
strings (abstracted as decode). A missing header reads as the empty string.
The token.Valid re-check after a nil-error parse is unreachable in jwt/v4 and
is not represented; the final expiry re-check is. -/
def authMiddlewareWired (decode : String → TokenRepr) (env : String) (now : Int)
    (authHeader : String) : GateOutcome :=
  if authHeader = "" then
    .unauthorized { error := "missing token", message := "missing token", code := 401 }
  else
    let parts := goSplitSpace authHeader
    if !(parts.length == 2 && parts.headD "" == "Bearer") then
      .unauthorized { error := "invalid token format", message := "invalid token format", code := 401 }
    else
      match parseWithClaims true true (effectiveSecret env) now (decode (parts.getD 1 "")) with
      | .err e =>
        if strContains e.inner "token is malformed" then
          .unauthorized { error := "invalid token", message := "malformed token", code := 401 }
        else if strContains e.inner "token is expired" then
          .unauthorized { error := "invalid token", message := "expired token", code := 401 }
        else
          .unauthorized { error := "invalid token", message := e.inner, code := 401 }
      | .ok claims =>
        if claims.exp < now then
          .unauthorized { error := "invalid token", message := "expired token", code := 401 }
        else
          .proceed claims

/-- AuthMiddleware of src/new/another_new.go: splits the header with
SplitN(2), delegates verification to the auth handler's ValidateToken
(abstracted as validate), and maps the ValidationError bitmask to a message.
Not-before never occurs in this model, so the expired-or-not-yet-valid test
reduces to the expired flag. -/
def authMiddlewareNew (validate : String → ParseResult)
    (authHeader : String) : GateOutcome :=
  if authHeader = "" then
    .unauthorized { error := "missing_token", message := "Authorization header is required", code := 401 }
  else
    let parts := splitNTwo authHeader
    if !(parts.length == 2 && parts.headD "" == "Bearer") then
      .unauthorized { error := "invalid_token_format",
                      message := "Authorization header must be in format \x27Bearer <token>\x27", code := 401 }
    else
      match validate (parts.getD 1 "") with
      | .err e =>
        let msg :=
          if e.malformedE then "Malformed token"
          else if e.expiredE then "Token expired or not active yet"
          else "Invalid token"
        .unauthorized { error := "invalid_token", message := msg, code := 401 }
      | .ok claims =>
        .proceed claims

/-- Customer record (src model definitions), as read by the order workflow. -/
structure Customer where
  id : Nat
  name : String
  code : String
  phone : String
  email : String
deriving DecidableEq, Repr

/-- Order row. The monetary amount is float64 in the source; the claims under
verification only compare it with zero, which is exact, so it is modelled as
an integer. Time is a Unix timestamp. -/
structure Order where
  id : Nat
  item : String
  amount : Int
  time : Int
  customerId : Nat
deriving DecidableEq, Repr

/-- Bound models.CreateOrderRequest. A JSON body with no customer_id binds to
customerId zero, which is what the handler's presence check tests. -/
structure CreateOrderRequest where
  item : String
  amount : Int
  time : Int
  customerId : Nat
deriving DecidableEq, Repr

/-- State of the persistence collaborator: the stored rows plus fault flags
for injected I/O failures of the customer lookup and the order insert. A
failed insert stores nothing (per-row atomicity of the collaborator). -/
structure DB where
  customers : List Customer
  orders : List Order
  lookupFault : Bool
  insertFault : Bool
deriving DecidableEq, Repr

/-- Events observable on the collaborators during one CreateOrder call, in
program order: the customer lookup, the attempted order insert, and the
dispatch of the SMS notification. -/
inductive OrderEvent where
  | lookupCustomer (cid : Nat)
  | insertAttempt (o : Order)
  | notify (phone : String) (message : String)
deriving DecidableEq, Repr

/-- HTTP-level outcome of CreateOrder. -/
inductive OrderResponse where
  | created (o : Order) (c : Customer)
  | badRequest (msg : String)
  | notFound
  | dbError (msg : String)
deriving DecidableEq, Repr

/-- HTTP status code of each CreateOrder outcome. -/
def statusOf : OrderResponse → Nat
  | .created _ _ => 201
  | .badRequest _ => 400
  | .notFound => 404
  | .dbError _ => 500

/-- Whether the outcome is the 201 success. -/
def isSuccess : OrderResponse → Bool
  | .created _ _ => true
  | _ => false

/-- db.First(&customer, id): primary-key lookup. -/
def findCustomer (db : DB) (cid : Nat) : Option Customer :=
  db.customers.find? (fun c => c.id == cid)

/-- Notification text rendered by sendOrderNotification
(src/handlers/order.go lines 271-281). -/
def notificationMessage (c : Customer) (o : Order) : String :=
  "hello " ++ c.name ++ ", your order for " ++ o.item ++ " (amount: ksh " ++
    toString o.amount ++ ") has been received. order time: " ++ toString o.time ++
    ". thank you for your business"

/-- Result of one CreateOrder call: the response, the persistence state after
the call, and the collaborator events in order. -/
structure CreateOrderOutcome where
  response : OrderResponse
  db : DB
  events : List OrderEvent
deriving DecidableEq, Repr

/-- OrderHandler.CreateOrder (src/handlers/order.go lines 27-88): field
validation, customer lookup, order insert, then the detached notification. -/
def createOrder (db : DB) (req : CreateOrderRequest) : CreateOrderOutcome :=
  if req.item = "" ∨ req.amount ≤ 0 ∨ req.customerId = 0 then
    { response := .badRequest "missing or invalid fields", db := db, events := [] }
  else if db.lookupFault then
    { response := .dbError "failed to verify customer", db := db,
      events := [.lookupCustomer req.customerId] }
  else
    match findCustomer db req.customerId with
    | none =>
      { response := .notFound, db := db, events := [.lookupCustomer req.customerId] }
    | some c =>
      let o : Order :=
        { id := db.orders.length + 1, item := req.item, amount := req.amount,
          time := req.time, customerId := req.customerId }
      if db.insertFault then
        { response := .dbError "failed to create order", db := db,
          events := [.lookupCustomer req.customerId, .insertAttempt o] }
      else
        { response := .created o c,
          db := { db with orders := db.orders ++ [o] },
          events := [.lookupCustomer req.customerId, .insertAttempt o,
                     .notify c.phone (notificationMessage c o)] }

/-- Number of notification attempts recorded in an event trace. -/
def notifyCount : List OrderEvent → Nat
  | [] => 0
  | .notify _ _ :: rest => notifyCount rest + 1
  | _ :: rest => notifyCount rest

/-- C1: the claim requires token issuance to hard-fail without a configured
secret and forbids any fallback to a fixed default secret for issuing or
verifying. The code does the opposite at the cited sites: handlers
NewAuthHandler hardcodes the secret, the middleware's verification falls back
to the same fixed default when JWT_SECRET is unset, and a token signed with
that default is then accepted by the gate. -/
theorem loginSecret_fallback_evaluated :
    handlersAuthJwtSecret = "secret-key" ∧
    effectiveSecret "" = "secret-key" ∧
    authMiddlewareWired
      (fun _ => jwtSign "secret-key"
        ⟨"u@x.com", "u@x.com", "Seb", "customer-order-api", "customer-order-api", 86400, 0⟩)
      "" 0 "Bearer x" =
      .proceed ⟨"u@x.com", "u@x.com", "Seb", "customer-order-api", "customer-order-api", 86400, 0⟩ := by
  decide

/-- C4: issuing a token for any claims with secret S and verifying it with the
same secret S at a time before expiry returns exactly the original claims. -/
theorem validateToken_jwtSign_roundtrip (c : JwtClaims) (secret : String)
    (now : Int) (_h : now < c.exp) :
    validateToken secret now (jwtSign secret c) = .ok c := by
  unfold validateToken jwtSign parseWithClaims
  simp

/-- Witness for the round-trip theorem at concrete claims, secret and time. -/
theorem validateToken_jwtSign_roundtrip_witness :
    validateToken "s" 0 (jwtSign "s" ⟨"e", "u", "n", "i", "a", 100, 0⟩) =
      .ok ⟨"e", "u", "n", "i", "a", 100, 0⟩ :=
  validateToken_jwtSign_roundtrip ⟨"e", "u", "n", "i", "a", 100, 0⟩ "s" 0 (by decide)

/-- C7: for any token whose claims have expires-at at or before the current
time, verification (as run by the wired middleware) fails with an expiry-class
error, whatever the signature value is. -/
theorem parse_expired_fails (secret : String) (now : Int) (c : JwtClaims)
    (sig : Nat) (h : c.exp ≤ now) :
    ∃ e, parseWithClaims true true secret now (.signed .HS256 c sig) = .err e ∧
      e.expiredE = true := by
  unfold parseWithClaims
  simp [h]

/-- Witness for the expiry theorem: a concrete expired token with a signature
that is in fact valid still fails verification with the expired flag set. -/
theorem parse_expired_fails_witness :
    ∃ e, parseWithClaims true true "s" 50
        (.signed .HS256 ⟨"e", "u", "n", "i", "a", 10, 0⟩ (hmacSign "s" ⟨"e", "u", "n", "i", "a", 10, 0⟩)) =
        .err e ∧ e.expiredE = true :=
  parse_expired_fails "s" 50 ⟨"e", "u", "n", "i", "a", 10, 0⟩
    (hmacSign "s" ⟨"e", "u", "n", "i", "a", 10, 0⟩) (by decide)

/-- C9: the session claims built by Login and by the OIDC Callback carry a
24-hour validity window measured from the first time sample, and expiry is
strictly after issued-at provided the handler finishes its second time sample
within that window. -/
theorem sessionClaims_validity_window (email sub name : String) (t1 t2 : Int)
    (h : t2 < t1 + 86400) :
    (loginClaims email t1 t2).exp = t1 + 86400 ∧
    (loginClaims email t1 t2).iat < (loginClaims email t1 t2).exp ∧
    (callbackClaims email sub name t1 t2).exp = t1 + 86400 ∧
    (callbackClaims email sub name t1 t2).iat < (callbackClaims email sub name t1 t2).exp := by
  refine ⟨rfl, ?_, rfl, ?_⟩ <;> simpa [loginClaims, callbackClaims] using h

/-- Witness for the validity-window theorem at a concrete login time. -/
theorem sessionClaims_validity_window_witness :
    (loginClaims "u@x.com" 1000 1000).exp = 1000 + 86400 ∧
    (loginClaims "u@x.com" 1000 1000).iat < (loginClaims "u@x.com" 1000 1000).exp ∧
    (callbackClaims "u@x.com" "sub1" "Seb" 1000 1000).exp = 1000 + 86400 ∧
    (callbackClaims "u@x.com" "sub1" "Seb" 1000 1000).iat <
      (callbackClaims "u@x.com" "sub1" "Seb" 1000 1000).exp :=
  sessionClaims_validity_window "u@x.com" "sub1" "Seb" 1000 1000 (by decide)

/-- C10: a token whose header declares a non-HMAC signing method is rejected
by the middleware keyfunc (ValidationErrorUnverifiable) and the request is
short-circuited as unauthorized, even when its claims are well-formed and
unexpired. -/
theorem authGate_rejects_non_hmac (decode : String → TokenRepr) (env : String)
    (now : Int) (alg : Alg) (c : JwtClaims) (sig : Nat)
    (halg : alg ≠ Alg.HS256) (hdec : decode "x" = .signed alg c sig) :
    parseWithClaims true true (effectiveSecret env) now (.signed alg c sig) =
      .err { unverifiableE := true,
             inner := "unexpected signing method: " ++ algName alg } ∧
    ∃ m, authMiddlewareWired decode env now "Bearer x" =
      .unauthorized ⟨"invalid token", m, 401⟩ := by
  have hbeq : (alg == Alg.HS256) = false := by
    cases alg <;> simp_all
  constructor
  · unfold parseWithClaims
    simp [hbeq]
  · cases alg with
    | HS256 => exact absurd rfl halg
    | RS256 =>
      refine ⟨"unexpected signing method: RS256", ?_⟩
      unfold authMiddlewareWired
      rw [show goSplitSpace "Bearer x" = ["Bearer", "x"] from by decide]
      simp [hdec, parseWithClaims, algName, strContains, infixOf]
    | noneAlg =>
      refine ⟨"unexpected signing method: none", ?_⟩
      unfold authMiddlewareWired
      rw [show goSplitSpace "Bearer x" = ["Bearer", "x"] from by decide]
      simp [hdec, parseWithClaims, algName, strContains, infixOf]

/-- Witness for the non-HMAC rejection theorem at a concrete RS256 token. -/
theorem authGate_rejects_non_hmac_witness :
    parseWithClaims true true (effectiveSecret "s") 0
        (.signed .RS256 ⟨"e", "u", "n", "i", "a", 100, 0⟩ 5) =
      .err { unverifiableE := true, inner := "unexpected signing method: RS256" } ∧
    ∃ m, authMiddlewareWired (fun _ => .signed .RS256 ⟨"e", "u", "n", "i", "a", 100, 0⟩ 5) "s" 0 "Bearer x" =
      .unauthorized ⟨"invalid token", m, 401⟩ :=
  authGate_rejects_non_hmac (fun _ => .signed .RS256 ⟨"e", "u", "n", "i", "a", 100, 0⟩ 5)
    "s" 0 .RS256 ⟨"e", "u", "n", "i", "a", 100, 0⟩ 5 (by decide) rfl

/-- C2: a CreateOrder call that fails with any error class (validation, missing
customer, lookup fault, insert fault) leaves the persisted order count
unchanged and makes no notification attempt. -/
theorem createOrder_failure_leaves_state_unchanged (db : DB)
    (req : CreateOrderRequest)
    (h : isSuccess (createOrder db req).response = false) :
    (createOrder db req).db.orders.length = db.orders.length ∧
    notifyCount (createOrder db req).events = 0 := by
  by_cases h1 : req.item = "" ∨ req.amount ≤ 0 ∨ req.customerId = 0
  · simp [createOrder, h1, notifyCount]
  · by_cases h2 : db.lookupFault = true
    · simp [createOrder, h1, h2, notifyCount]
    · cases hc : findCustomer db req.customerId with
      | none => simp [createOrder, h1, h2, hc, notifyCount]
      | some c =>
        by_cases h3 : db.insertFault = true
        · simp [createOrder, h1, h2, hc, h3, notifyCount]
        · exfalso
          simp [createOrder, h1, h2, hc, h3, isSuccess] at h

/-- Witness for the no-side-effect theorem: an order for an absent customer
leaves no rows and no notifications. -/
theorem createOrder_failure_leaves_state_unchanged_witness :
    (createOrder ⟨[⟨7, "Jane", "C7", "+254700000000", "j@x.com"⟩], [], false, false⟩
        ⟨"Phone", 12000, 5, 999⟩).db.orders.length =
      (⟨[⟨7, "Jane", "C7", "+254700000000", "j@x.com"⟩], [], false, false⟩ : DB).orders.length ∧
    notifyCount (createOrder ⟨[⟨7, "Jane", "C7", "+254700000000", "j@x.com"⟩], [], false, false⟩
        ⟨"Phone", 12000, 5, 999⟩).events = 0 :=
  createOrder_failure_leaves_state_unchanged
    ⟨[⟨7, "Jane", "C7", "+254700000000", "j@x.com"⟩], [], false, false⟩
    ⟨"Phone", 12000, 5, 999⟩ (by decide)

/-- C3: in every execution, any attempted order write is strictly preceded in
the event trace by a customer lookup that completed without fault and found
the customer; and when the customer is absent the call (having passed
validation, with no lookup fault) answers not-found, stores nothing, and
attempts no write. -/
theorem createOrder_lookup_precedes_write (db : DB) (req : CreateOrderRequest) :
    (∀ i o, (createOrder db req).events.get? i = some (.insertAttempt o) →
        db.lookupFault = false ∧
        (∃ c, findCustomer db req.customerId = some c) ∧
        ∃ j, j < i ∧
          (createOrder db req).events.get? j = some (.lookupCustomer req.customerId)) ∧
    (findCustomer db req.customerId = none →
        ¬(req.item = "" ∨ req.amount ≤ 0 ∨ req.customerId = 0) →
        db.lookupFault = false →
        (createOrder db req).response = .notFound ∧
        (createOrder db req).db.orders = db.orders ∧
        ∀ i o, (createOrder db req).events.get? i ≠ some (.insertAttempt o)) := by
  constructor
  · intro i o hio
    by_cases h1 : req.item = "" ∨ req.amount ≤ 0 ∨ req.customerId = 0
    · simp [createOrder, h1] at hio
    · by_cases h2 : db.lookupFault = true
      · simp [createOrder, h1, h2] at hio
        rcases i with _ | i <;> simp [List.get?] at hio
      · cases hc : findCustomer db req.customerId with
        | none =>
          simp [createOrder, h1, h2, hc] at hio
          rcases i with _ | i <;> simp [List.get?] at hio
        | some c =>
          refine ⟨by simpa using h2, ⟨c, rfl⟩, 0, ?_, ?_⟩
          · rcases i with _ | i
            · by_cases h3 : db.insertFault = true <;>
                simp [createOrder, h1, h2, hc, h3, List.get?] at hio
            · omega
          · by_cases h3 : db.insertFault = true <;>
              simp [createOrder, h1, h2, hc, h3, List.get?]
  · intro hc h1 h2
    refine ⟨?_, ?_, ?_⟩
    · simp [createOrder, h1, h2, hc]
    · simp [createOrder, h1, h2, hc]
    · intro i o
      simp [createOrder, h1, h2, hc]
      rcases i with _ | i <;> simp [List.get?]

/-- Witness for the lookup-before-write theorem: the write of a successful
call is preceded by the lookup, and a call for an absent customer answers
not-found with no write. -/
theorem createOrder_lookup_precedes_write_witness :
    ((false = false) ∧
      (∃ c, findCustomer ⟨[⟨7, "Jane", "C7", "+254700000000", "j@x.com"⟩], [], false, false⟩ 7 =
        some c) ∧
      (∃ j, j < 1 ∧
        (createOrder ⟨[⟨7, "Jane", "C7", "+254700000000", "j@x.com"⟩], [], false, false⟩
            ⟨"Phone", 12000, 5, 7⟩).events.get? j = some (.lookupCustomer 7))) ∧
    ((createOrder ⟨[⟨7, "Jane", "C7", "+254700000000", "j@x.com"⟩], [], false, false⟩
        ⟨"Phone", 12000, 5, 999⟩).response = .notFound ∧
      (createOrder ⟨[⟨7, "Jane", "C7", "+254700000000", "j@x.com"⟩], [], false, false⟩
          ⟨"Phone", 12000, 5, 999⟩).db.orders = [] ∧
      ∀ i o, (createOrder ⟨[⟨7, "Jane", "C7", "+254700000000", "j@x.com"⟩], [], false, false⟩
          ⟨"Phone", 12000, 5, 999⟩).events.get? i ≠ some (.insertAttempt o)) :=
  ⟨(createOrder_lookup_precedes_write
      ⟨[⟨7, "Jane", "C7", "+254700000000", "j@x.com"⟩], [], false, false⟩
      ⟨"Phone", 12000, 5, 7⟩).1 1 ⟨1, "Phone", 12000, 5, 7⟩ (by decide),
   (createOrder_lookup_precedes_write
      ⟨[⟨7, "Jane", "C7", "+254700000000", "j@x.com"⟩], [], false, false⟩
      ⟨"Phone", 12000, 5, 999⟩).2 (by decide) (by decide) rfl⟩

/-- C8 counterexample: a request with non-empty item, amount exactly zero and
a present customer id satisfies the claimed acceptance conditions, yet the
handler rejects it as a bad request with no effects. -/
theorem createOrder_zero_amount_counterexample :
    (("Phone" : String) ≠ "" ∧ (0 : Int) ≥ 0 ∧ (7 : Nat) ≠ 0) ∧
    (createOrder ⟨[⟨7, "Jane", "C7", "+254700000000", "j@x.com"⟩], [], false, false⟩
        ⟨"Phone", 0, 5, 7⟩).response = .badRequest "missing or invalid fields" ∧
    (createOrder ⟨[⟨7, "Jane", "C7", "+254700000000", "j@x.com"⟩], [], false, false⟩
        ⟨"Phone", 0, 5, 7⟩).db.orders = [] ∧
    (createOrder ⟨[⟨7, "Jane", "C7", "+254700000000", "j@x.com"⟩], [], false, false⟩
        ⟨"Phone", 0, 5, 7⟩).events = [] := by
  decide

/-- C8 amended: validation accepts exactly the requests with non-empty item,
strictly positive amount and non-zero customer id; any request violating one
of these (amount zero included) is rejected as a 400 bad request with the
state unchanged and no collaborator events. -/
theorem createOrder_validation_boundary (db : DB) (req : CreateOrderRequest) :
    (req.item = "" ∨ req.amount ≤ 0 ∨ req.customerId = 0 →
      (createOrder db req).response = .badRequest "missing or invalid fields" ∧
      statusOf (createOrder db req).response = 400 ∧
      (createOrder db req).db = db ∧
      (createOrder db req).events = []) ∧
    (req.item ≠ "" → 0 < req.amount → req.customerId ≠ 0 →
      ∀ m, (createOrder db req).response ≠ .badRequest m) := by
  constructor
  · intro h1
    simp [createOrder, h1, statusOf]
  · intro hi ha hc m
    have h1 : ¬(req.item = "" ∨ req.amount ≤ 0 ∨ req.customerId = 0) := by
      push_neg
      exact ⟨hi, by omega, hc⟩
    unfold createOrder
    rw [if_neg h1]
    dsimp only
    split
    · simp
    · split
      · simp
      · split <;> simp

/-- Witness for the validation-boundary theorem: an empty item is rejected
with no effects, and a strictly positive request is not rejected by
validation. -/
theorem createOrder_validation_boundary_witness :
    ((createOrder ⟨[⟨7, "Jane", "C7", "+254700000000", "j@x.com"⟩], [], false, false⟩
        ⟨"", 12000, 5, 7⟩).response = .badRequest "missing or invalid fields" ∧
      statusOf (createOrder ⟨[⟨7, "Jane", "C7", "+254700000000", "j@x.com"⟩], [], false, false⟩
        ⟨"", 12000, 5, 7⟩).response = 400 ∧
      (createOrder ⟨[⟨7, "Jane", "C7", "+254700000000", "j@x.com"⟩], [], false, false⟩
        ⟨"", 12000, 5, 7⟩).db =
        ⟨[⟨7, "Jane", "C7", "+254700000000", "j@x.com"⟩], [], false, false⟩ ∧
      (createOrder ⟨[⟨7, "Jane", "C7", "+254700000000", "j@x.com"⟩], [], false, false⟩
        ⟨"", 12000, 5, 7⟩).events = []) ∧
    (∀ m, (createOrder ⟨[⟨7, "Jane", "C7", "+254700000000", "j@x.com"⟩], [], false, false⟩
        ⟨"Phone", 12000, 5, 7⟩).response ≠ .badRequest m) :=
  ⟨(createOrder_validation_boundary
      ⟨[⟨7, "Jane", "C7", "+254700000000", "j@x.com"⟩], [], false, false⟩
      ⟨"", 12000, 5, 7⟩).1 (by decide),
   (createOrder_validation_boundary
      ⟨[⟨7, "Jane", "C7", "+254700000000", "j@x.com"⟩], [], false, false⟩
      ⟨"Phone", 12000, 5, 7⟩).2 (by decide) (by decide) (by decide)⟩

/-- C5 counterexample: the gate wired into src/main.go answers a request with
no Authorization header with the error code string containing a space, not the
underscore code the claim states. -/
theorem authGate_underscore_codes_counterexample :
    authMiddlewareWired (fun _ => .malformed "m") "s" 0 "" =
      .unauthorized ⟨"missing token", "missing token", 401⟩ ∧
    ("missing token" : String) ≠ "missing_token" := by
  decide

/-- C5 amended: the three-way mapping of the claim holds with the code split
per middleware variant. The wired gate (src/internal/middleware/auth.go)
answers missing header, bad header shape, and failed verification with the
space-separated codes; the src/new/another_new.go gate answers the same three
cases with the underscore codes the claim quotes. -/
theorem authGate_error_code_mapping (decode : String → TokenRepr)
    (validate : String → ParseResult) (env : String) (now : Int) (header : String) :
    (authMiddlewareWired decode env now "" =
      .unauthorized ⟨"missing token", "missing token", 401⟩) ∧
    (authMiddlewareNew validate "" =
      .unauthorized ⟨"missing_token", "Authorization header is required", 401⟩) ∧
    (header ≠ "" →
      ((goSplitSpace header).length == 2 && (goSplitSpace header).headD "" == "Bearer") = false →
      authMiddlewareWired decode env now header =
        .unauthorized ⟨"invalid token format", "invalid token format", 401⟩) ∧
    (header ≠ "" →
      ((splitNTwo header).length == 2 && (splitNTwo header).headD "" == "Bearer") = false →
      authMiddlewareNew validate header =
        .unauthorized ⟨"invalid_token_format", "Authorization header must be in format \x27Bearer <token>\x27", 401⟩) ∧
    (∀ e, parseWithClaims true true (effectiveSecret env) now (decode "x") = .err e →
      ∃ m, authMiddlewareWired decode env now "Bearer x" =
        .unauthorized ⟨"invalid token", m, 401⟩) ∧
    (∀ e, validate "x" = .err e →
      ∃ m, authMiddlewareNew validate "Bearer x" =
        .unauthorized ⟨"invalid_token", m, 401⟩) := by
  refine ⟨by simp [authMiddlewareWired], by simp [authMiddlewareNew], ?_, ?_, ?_, ?_⟩
  · intro h1 h2
    unfold authMiddlewareWired
    rw [if_neg h1]
    dsimp only
    split
    · rfl
    · rename_i hcond
      exact absurd (by rw [h2]; rfl) hcond
  · intro h1 h2
    unfold authMiddlewareNew
    rw [if_neg h1]
    dsimp only
    split
    · rfl
    · rename_i hcond
      exact absurd (by rw [h2]; rfl) hcond
  · intro e he
    unfold authMiddlewareWired
    rw [show goSplitSpace "Bearer x" = ["Bearer", "x"] from by decide]
    rw [if_neg (by decide : ¬("Bearer x" = ""))]
    rw [if_neg (by decide :
      ¬((!((["Bearer", "x"] : List String).length == 2 && (["Bearer", "x"] : List String).headD "" == "Bearer")) = true))]
    rw [show (["Bearer", "x"] : List String).getD 1 "" = "x" from rfl]
    rw [he]
    dsimp only
    by_cases h1 : strContains e.inner "token is malformed" = true
    · exact ⟨"malformed token", by rw [if_pos h1]⟩
    · by_cases h2 : strContains e.inner "token is expired" = true
      · exact ⟨"expired token", by rw [if_neg h1, if_pos h2]⟩
      · exact ⟨e.inner, by rw [if_neg h1, if_neg h2]⟩
  · intro e he
    unfold authMiddlewareNew
    rw [show splitNTwo "Bearer x" = ["Bearer", "x"] from by decide]
    rw [if_neg (by decide : ¬("Bearer x" = ""))]
    rw [if_neg (by decide :
      ¬((!((["Bearer", "x"] : List String).length == 2 && (["Bearer", "x"] : List String).headD "" == "Bearer")) = true))]
    rw [show (["Bearer", "x"] : List String).getD 1 "" = "x" from rfl]
    rw [he]
    dsimp only
    exact ⟨_, rfl⟩

/-- Witness for the error-code mapping theorem: a malformed header and a
malformed token, evaluated through both gate variants. -/
theorem authGate_error_code_mapping_witness :
    (authMiddlewareWired (fun _ => .malformed "m") "s" 0 "Token abc" =
      .unauthorized ⟨"invalid token format", "invalid token format", 401⟩) ∧
    (authMiddlewareNew (fun _ => .err { malformedE := true, inner := "m" }) "Token abc" =
      .unauthorized ⟨"invalid_token_format", "Authorization header must be in format \x27Bearer <token>\x27", 401⟩) ∧
    (∃ m, authMiddlewareWired (fun _ => .malformed "m") "s" 0 "Bearer x" =
      .unauthorized ⟨"invalid token", m, 401⟩) ∧
    (∃ m, authMiddlewareNew (fun _ => .err { malformedE := true, inner := "m" }) "Bearer x" =
      .unauthorized ⟨"invalid_token", m, 401⟩) := by
  have h := authGate_error_code_mapping (fun _ => .malformed "m")
    (fun _ => .err { malformedE := true, inner := "m" }) "s" 0 "Token abc"
  exact ⟨h.2.2.1 (by decide) (by decide), h.2.2.2.1 (by decide) (by decide),
    h.2.2.2.2.1 { malformedE := true, inner := "m" } (by decide),
    h.2.2.2.2.2 { malformedE := true, inner := "m" } (by decide)⟩

/-- C6 counterexample: two tokens failing verification for different
sub-reasons (structurally malformed vs expired) receive different unauthorized
response bodies from the wired gate: the message field carries the sub-reason. -/
theorem authGate_body_distinguishes_counterexample :
    authMiddlewareWired (fun _ => .malformed "token contains an invalid number of segments") "s" 0 "Bearer x" =
      .unauthorized ⟨"invalid token", "token contains an invalid number of segments", 401⟩ ∧
    authMiddlewareWired (fun _ => jwtSign "s" ⟨"e", "u", "n", "i", "a", -1, -1⟩) "s" 0 "Bearer x" =
      .unauthorized ⟨"invalid token", "expired token", 401⟩ ∧
    (⟨"invalid token", "token contains an invalid number of segments", 401⟩ : ErrorResponse) ≠
      ⟨"invalid token", "expired token", 401⟩ := by
  decide

/-- C6 amended: across all verification-failure sub-reasons the wired gate's
unauthorized body carries the same error code field and status (invalid token,
401); only the message field varies with the sub-reason. -/
theorem authGate_uniform_error_field (decode : String → TokenRepr)
    (env : String) (now : Int) :
    ∀ e, parseWithClaims true true (effectiveSecret env) now (decode "x") = .err e →
      ∃ m, authMiddlewareWired decode env now "Bearer x" =
          .unauthorized ⟨"invalid token", m, 401⟩ ∧
        (m = "malformed token" ∨ m = "expired token" ∨ m = e.inner) := by
  intro e he
  unfold authMiddlewareWired
  rw [show goSplitSpace "Bearer x" = ["Bearer", "x"] from by decide]
  rw [if_neg (by decide : ¬("Bearer x" = ""))]
  rw [if_neg (by decide :
    ¬((!((["Bearer", "x"] : List String).length == 2 && (["Bearer", "x"] : List String).headD "" == "Bearer")) = true))]
  rw [show (["Bearer", "x"] : List String).getD 1 "" = "x" from rfl]
  rw [he]
  dsimp only
  by_cases h1 : strContains e.inner "token is malformed" = true
  · exact ⟨"malformed token", by rw [if_pos h1], Or.inl rfl⟩
  · by_cases h2 : strContains e.inner "token is expired" = true
    · exact ⟨"expired token", by rw [if_neg h1, if_pos h2], Or.inr (Or.inl rfl)⟩
    · exact ⟨e.inner, by rw [if_neg h1, if_neg h2], Or.inr (Or.inr rfl)⟩

/-- Witness for the uniform-error-field theorem at a concrete token with an
invalid signature. -/
theorem authGate_uniform_error_field_witness :
    ∃ m, authMiddlewareWired (fun _ => jwtSign "other" ⟨"e", "u", "n", "i", "a", 100, 0⟩) "s" 0 "Bearer x" =
        .unauthorized ⟨"invalid token", m, 401⟩ ∧
      (m = "malformed token" ∨ m = "expired token" ∨
        m = (VError.inner { sigE := true, inner := "signature is invalid" })) := by
  exact authGate_uniform_error_field (fun _ => jwtSign "other" ⟨"e", "u", "n", "i", "a", 100, 0⟩)
    "s" 0 { sigE := true, inner := "signature is invalid" } (by decide)

end SavannahApi
